import Mathlib

/-!
Shallow embedding of the clock-tree configuration engine of the
stm32h7xx-hal repository (src/rcc.rs): the PLL1 planner (`pll_setup`),
the bus-divider tables (`ppre_bits_div`, `hpre_div`), the flash
wait-state selector (`flash_ws`) and the register-programming order of
`freeze`.

Conventions of the embedding:
* Rust `u32` arithmetic is modelled by `Nat`.  Every quantity that
  survives the planner's own assertions is bounded well below `2^32`
  (source clock at most 126 MHz once `pll1_m < 64` holds, system clock
  at most 480 MHz, AHB clock at most 240 MHz), so the `Nat` values
  coincide with the `u32` values on every run that matters; a Rust
  overflow or division-by-zero panic and a failed `assert!` are both
  modelled as `Except.error`.
* An `assert!` failure, an `unreachable!()` and an arithmetic panic
  abort the program; `freeze` is therefore modelled in `Except`, and
  the error value carries the list of hardware register writes that
  were performed before the abort, so that ordering claims about the
  write sequence can be stated.  Busy-wait polls of hardware ready
  flags and the two read-only sanity asserts on `HSION`/`HSIDIV` are
  modelled as succeeding (they write nothing and the claims under
  study only concern the write ordering and the pure planning
  arithmetic).
-/

namespace Stm32Rcc

/-- `HSI` frequency, Hz (src/rcc.rs line 242). -/
def HSI : Nat := 64000000

/-- `CSI` frequency, Hz (src/rcc.rs line 243). -/
def CSI : Nat := 4000000

/-- Voltage scale, from the power module (four operating points,
`Scale0` is the highest performance). -/
inductive Voltage
  | Scale0 | Scale1 | Scale2 | Scale3
deriving DecidableEq, Repr

/-- The clock configuration request accumulated by the builder
(struct `Config` of src/rcc.rs). -/
structure Config where
  hse : Option Nat
  sys_ck : Option Nat
  per_ck : Option Nat
  rcc_hclk : Option Nat
  rcc_pclk1 : Option Nat
  rcc_pclk2 : Option Nat
  rcc_pclk3 : Option Nat
  rcc_pclk4 : Option Nat
deriving DecidableEq, Repr

/-- One hardware register write performed by `pll_setup` / `freeze`,
in source order. -/
inductive RegWrite
  | pllckselr | pll1divr | pllcfgr
  | flash_acr
  | cr_csion | cr_hseon | cr_pll1on
  | d1cfgr | d2cfgr | d3cfgr | d1ccipr | cfgr_timpre | cfgr_sw
  | apb4enr | syscfg_cccsr
deriving DecidableEq, Repr

/-- The clock source frequency: HSE if configured, else HSI
(src/rcc.rs line 385). -/
def srcclk_of (config : Config) : Nat := config.hse.getD HSI

/-- The requested system clock, defaulting to the source clock
(src/rcc.rs line 386). -/
def sys_ck_of (config : Config) : Nat := (config.sys_ck).getD (srcclk_of config)

/-- PLL1 reference prescaler: `(srcclk + 1_999_999) / 2_000_000`
(src/rcc.rs line 406). -/
def pll1_m_of (srcclk : Nat) : Nat := (srcclk + 1999999) / 2000000

/-- PLL1 reference clock `srcclk / pll1_m` (src/rcc.rs line 411). -/
def ref1_ck_of (srcclk : Nat) : Nat := srcclk / pll1_m_of srcclk

/-- VCO upper limit for the medium-range VCO (src/rcc.rs line 416). -/
def pll1_vco_max : Nat := 420000000

/-- VCO lower limit for the medium-range VCO (src/rcc.rs line 415). -/
def pll1_vco_min : Nat := 150000000

/-- PLL1 output divider: 1 above half the VCO maximum, otherwise
`((pll1_vco_max / sys_ck) | 1) - 1`, even or unity
(src/rcc.rs lines 417-421). -/
def pll1_p_of (sys_ck : Nat) : Nat :=
  if sys_ck > pll1_vco_max / 2 then 1
  else ((pll1_vco_max / sys_ck) ||| 1) - 1

/-- VCO frequency `sys_ck * pll1_p` (src/rcc.rs line 422). -/
def vco1_ck_of (sys_ck : Nat) : Nat := sys_ck * pll1_p_of sys_ck

/-- PLL1 feedback divider `vco1_ck / ref1_ck` (src/rcc.rs line 429). -/
def pll1_n_of (srcclk sys_ck : Nat) : Nat :=
  vco1_ck_of sys_ck / ref1_ck_of srcclk

/-- The chain of `assert!`s of `pll_setup` on the engaged path
(src/rcc.rs lines 399, 408, 412, 424-426, 431-432), collected into
one conjunction: each failing assert aborts the program before any
PLL register write, so they are observationally one guard.  When
`sys_ck = 0` the Rust source panics on the division
`pll1_vco_max / sys_ck`; here that `Nat` division yields 0 and the
`vco1_ck >= pll1_vco_min` conjunct fails instead — the same abort
outcome. -/
def pll1_asserts (srcclk sys_ck : Nat) : Prop :=
  srcclk > 0 ∧
  pll1_m_of srcclk < 64 ∧
  ref1_ck_of srcclk ≥ 1000000 ∧ ref1_ck_of srcclk ≤ 2000000 ∧
  pll1_p_of sys_ck ≤ 128 ∧
  vco1_ck_of sys_ck ≥ pll1_vco_min ∧ vco1_ck_of sys_ck ≤ pll1_vco_max ∧
  pll1_n_of srcclk sys_ck ≥ 4 ∧ pll1_n_of srcclk sys_ck ≤ 512

instance (srcclk sys_ck : Nat) : Decidable (pll1_asserts srcclk sys_ck) := by
  unfold pll1_asserts; infer_instance

/-- PLL1 P output clock `ref1_ck * pll1_n / pll1_p`
(src/rcc.rs line 435); the Q output uses the same divider, hence the
same value (lines 438-439). -/
def pll1_p_ck_of (srcclk sys_ck : Nat) : Nat :=
  ref1_ck_of srcclk * pll1_n_of srcclk sys_ck / pll1_p_of sys_ck

/-- The PLL1 planner (fn `pll_setup`, src/rcc.rs lines 380-475).
Returns the three PLL output clocks together with the register writes
performed; a failed `assert!` is `Except.error` with the (empty) list
of writes performed before the abort.  On the engaged path the three
divider/configuration registers are written after all assertions
pass (lines 442-469). -/
def pll_setup (config : Config) :
    Except (List RegWrite) ((Option Nat × Option Nat × Option Nat) × List RegWrite) :=
  let srcclk := srcclk_of config
  let sys_ck := sys_ck_of config
  if sys_ck ≠ srcclk then
    if pll1_asserts srcclk sys_ck then
      .ok ((some (pll1_p_ck_of srcclk sys_ck), some (pll1_p_ck_of srcclk sys_ck), none),
           [.pllckselr, .pll1divr, .pllcfgr])
    else .error []
  else
    .ok ((none, none, none), [])

/-- The band tables of the flash wait-state selection
(fn `flash_setup`, src/rcc.rs lines 483-512): RM0433 Table 13, keyed
on the voltage scale and the AXI clock in MHz.  With the four-variant
voltage scale the trailing `_ => (7, 3)` arm of the Rust match is
unreachable (the three listed tables cover all variants). -/
def flash_ws_tbl (vos : Voltage) (rcc_aclk_mhz : Nat) : Nat × Nat :=
  match vos with
  | .Scale0 | .Scale1 =>
    if rcc_aclk_mhz ≤ 69 then (0, 0)
    else if rcc_aclk_mhz ≤ 139 then (1, 1)
    else if rcc_aclk_mhz ≤ 184 then (2, 1)
    else if rcc_aclk_mhz ≤ 209 then (2, 2)
    else if rcc_aclk_mhz ≤ 224 then (3, 2)
    else (7, 3)
  | .Scale2 =>
    if rcc_aclk_mhz ≤ 54 then (0, 0)
    else if rcc_aclk_mhz ≤ 109 then (1, 1)
    else if rcc_aclk_mhz ≤ 164 then (2, 1)
    else if rcc_aclk_mhz ≤ 224 then (3, 2)
    else if rcc_aclk_mhz ≤ 225 then (4, 2)
    else (7, 3)
  | .Scale3 =>
    if rcc_aclk_mhz ≤ 44 then (0, 0)
    else if rcc_aclk_mhz ≤ 89 then (1, 1)
    else if rcc_aclk_mhz ≤ 134 then (2, 1)
    else if rcc_aclk_mhz ≤ 179 then (3, 2)
    else if rcc_aclk_mhz ≤ 224 then (4, 2)
    else (7, 3)

/-- Flash wait-state and programming-delay selection
(fn `flash_setup`, src/rcc.rs lines 477-520): the AXI clock is first
scaled to MHz (`rcc_aclk / 1_000_000`, line 479), then looked up in
the band table. -/
def flash_ws (vos : Voltage) (rcc_aclk : Nat) : Nat × Nat :=
  flash_ws_tbl vos (rcc_aclk / 1000000)

/-- Modelled from the spec: the frequency bands of the flash
wait-state tables as data — `(lower bound MHz, optional upper bound
MHz, wait states, programming delay)` — used to state that the bands
are contiguous and exhaustive.  The band boundaries are transcribed
from the spec's reading of RM0433 Table 13 (§4.3 of the spec). -/
def flash_bands (vos : Voltage) : List (Nat × Option Nat × Nat × Nat) :=
  match vos with
  | .Scale0 | .Scale1 =>
    [(0, some 69, 0, 0), (70, some 139, 1, 1), (140, some 184, 2, 1),
     (185, some 209, 2, 2), (210, some 224, 3, 2), (225, none, 7, 3)]
  | .Scale2 =>
    [(0, some 54, 0, 0), (55, some 109, 1, 1), (110, some 164, 2, 1),
     (165, some 224, 3, 2), (225, some 225, 4, 2), (226, none, 7, 3)]
  | .Scale3 =>
    [(0, some 44, 0, 0), (45, some 89, 1, 1), (90, some 134, 2, 1),
     (135, some 179, 3, 2), (180, some 224, 4, 2), (225, none, 7, 3)]

/-- Whether an AXI-clock megahertz value falls inside a band. -/
def inBand (mhz : Nat) (b : Nat × Option Nat × Nat × Nat) : Bool :=
  b.1 ≤ mhz && (match b.2.1 with | some hi => mhz ≤ hi | none => true)

/-- Voltage-scale operating limits
`(sys_d1cpre_ck_max, rcc_hclk_max, pclk_max)`
(src/rcc.rs lines 570-575, stm32h742/h743/h753/h750 table). -/
def limits (vos : Voltage) : Nat × Nat × Nat :=
  match vos with
  | .Scale0 => (480000000, 240000000, 120000000)
  | .Scale1 => (400000000, 200000000, 100000000)
  | .Scale2 => (300000000, 150000000, 75000000)
  | .Scale3 => (200000000, 100000000, 50000000)

/-- APB prescaler table of the `ppre_calculate!` macro
(src/rcc.rs lines 346-354), mapping the rounded-up ratio
`(hclk + pclk - 1) / pclk` to `(bits, divider)`.  The Rust `0 =>
unreachable!()` arm (a panic; it is hit only when `hclk = 0`) is
modelled as divider 0, turned into `Except.error` by the caller. -/
def ppre_bits_div (r : Nat) : Nat × Nat :=
  if r = 0 then (0, 0)
  else if r = 1 then (0b000, 1)
  else if r = 2 then (0b100, 2)
  else if r ≤ 5 then (0b101, 4)
  else if r ≤ 11 then (0b110, 8)
  else (0b111, 16)

/-- The APB prescaler chosen for an AHB clock `hclk` and a bus target
`pclk` (the divider component of the `ppre_calculate!` match). -/
def ppre_div_of (hclk pclk : Nat) : Nat :=
  (ppre_bits_div ((hclk + pclk - 1) / pclk)).2

/-- AHB prescaler table (src/rcc.rs lines 585-597), mapping the
rounded-up ratio `(sys_d1cpre_ck + rcc_hclk - 1) / rcc_hclk` to the
divider.  The `0 => unreachable!()` panic arm is modelled as 0. -/
def hpre_div_tbl (r : Nat) : Nat :=
  if r = 0 then 0
  else if r = 1 then 1
  else if r = 2 then 2
  else if r ≤ 5 then 4
  else if r ≤ 11 then 8
  else if r ≤ 39 then 16
  else if r ≤ 95 then 64
  else if r ≤ 191 then 128
  else if r ≤ 383 then 256
  else 512

/-- Timer kernel clock for the buses that carry timers, with the
timer prescaler fixed at `TIMPREW::DEFAULTX2` as in `freeze`
(src/rcc.rs lines 362-372 and 559). -/
def tim_ker_clk (hclk bits : Nat) : Nat :=
  if bits = 0b101 then hclk / 2
  else if bits = 0b110 then hclk / 4
  else if bits = 0b111 then hclk / 8
  else hclk

/-- Peripheral-clock (`per_ck`) source selection of `freeze`
(src/rcc.rs lines 544-550): HSE when the request equals the
configured HSE, CSI when the request is exactly `CSI`, HSI
otherwise. -/
def per_ck_sel (per_ckc hsec : Option Nat) : Nat :=
  match per_ckc == hsec, per_ckc with
  | true, some h => h
  | _, some p => if p == CSI then CSI else HSI
  | _, _ => HSI

/-- One expansion of the `ppre_calculate!` macro body for a single
bus (src/rcc.rs lines 339-361): resolve the target, look up the
divider, recompute the real APB clock and check it against the
voltage-scale ceiling.  Returns `(bits, divider, real pclk)`; `none`
models the panics (`assert!(pclk <= max)` failure, the
`unreachable!()` arm, division by zero when the target is 0). -/
def ppre_one (hclk : Nat) (req : Option Nat) (max : Nat) :
    Option (Nat × Nat × Nat) :=
  let pclk := req.getD (min max (hclk / 2))
  if pclk = 0 then none
  else
    let bd := ppre_bits_div ((hclk + pclk - 1) / pclk)
    if bd.2 = 0 then none
    else
      let pclk := hclk / bd.2
      if pclk ≤ max then some (bd.1, bd.2, pclk) else none

/-- The frozen clock record (struct `CoreClocks`, src/rcc.rs
lines 740-767). -/
structure CoreClocks where
  hclk : Nat
  pclk1 : Nat
  pclk2 : Nat
  pclk3 : Nat
  pclk4 : Nat
  ppre1 : Nat
  ppre2 : Nat
  ppre3 : Nat
  ppre4 : Nat
  csi_ck : Option Nat
  hsi_ck : Option Nat
  per_ck : Option Nat
  hse_ck : Option Nat
  pll1_p_ck : Option Nat
  pll1_q_ck : Option Nat
  pll1_r_ck : Option Nat
  pll2_p_ck : Option Nat
  pll2_q_ck : Option Nat
  pll2_r_ck : Option Nat
  pll3_p_ck : Option Nat
  pll3_q_ck : Option Nat
  pll3_r_ck : Option Nat
  timx_ker_ck : Nat
  timy_ker_ck : Nat
  sys_ck : Nat
  c_ck : Nat
deriving DecidableEq, Repr

/-- The pure planning stage of `freeze` after the PLL planner: the
core-prescaler and AHB checks (src/rcc.rs lines 552-601) followed by
the four `ppre_calculate!` expansions (line 604); `none` models a
fatal abort (the failing `assert!`s, or the division-by-zero /
`unreachable!()` panics reachable when a clock is 0).  Each record
field holds what the corresponding source `let` holds. -/
structure FreezePlan where
  sys_d1cpre_ck : Nat
  rcc_hclk : Nat
  p1 : Nat × Nat × Nat
  p2 : Nat × Nat × Nat
  p3 : Nat × Nat × Nat
  p4 : Nat × Nat × Nat
deriving DecidableEq, Repr

/-- Bus-divider planning of `freeze` (src/rcc.rs lines 552-611). -/
def freeze_plan (config : Config) (vos : Voltage) (sys_ck : Nat) :
    Option FreezePlan :=
  let d1cpre_div := 1
  let sys_d1cpre_ck := sys_ck / d1cpre_div
  let lims := limits vos
  if ¬ (sys_d1cpre_ck ≤ lims.1) then none else
  let rcc_hclk := (config.rcc_hclk).getD (sys_d1cpre_ck / 2)
  if ¬ (rcc_hclk ≤ lims.2.1) then none else
  if rcc_hclk = 0 then none else
  let hpre_div := hpre_div_tbl ((sys_d1cpre_ck + rcc_hclk - 1) / rcc_hclk)
  if hpre_div = 0 then none else
  let rcc_hclk2 := sys_d1cpre_ck / hpre_div
  if ¬ (rcc_hclk2 ≤ lims.2.1) then none else
  (ppre_one rcc_hclk2 config.rcc_pclk1 lims.2.2).bind fun p1 =>
  (ppre_one rcc_hclk2 config.rcc_pclk2 lims.2.2).bind fun p2 =>
  (ppre_one rcc_hclk2 config.rcc_pclk3 lims.2.2).bind fun p3 =>
  (ppre_one rcc_hclk2 config.rcc_pclk4 lims.2.2).map fun p4 =>
  { sys_d1cpre_ck := sys_d1cpre_ck
    rcc_hclk := rcc_hclk2
    p1 := p1, p2 := p2, p3 := p3, p4 := p4 }

/-- The register writes of the freeze sequence that follow the
planning stage, in source order (src/rcc.rs lines 613-690): flash
ACR, CSI enable, HSE enable (when configured), PLL1 enable (when a
plan was produced), D1/D2/D3 prescaler registers, `per_ck` selection,
timer prescaler, system clock switch, SYSCFG enable and the I/O
compensation cell. -/
def freeze_tail_writes (hse_some pll_some : Bool) : List RegWrite :=
  [RegWrite.flash_acr, RegWrite.cr_csion]
    ++ (if hse_some then [RegWrite.cr_hseon] else [])
    ++ (if pll_some then [RegWrite.cr_pll1on] else [])
    ++ [RegWrite.d1cfgr, RegWrite.d2cfgr, RegWrite.d3cfgr,
        RegWrite.d1ccipr, RegWrite.cfgr_timpre, RegWrite.cfgr_sw,
        RegWrite.apb4enr, RegWrite.syscfg_cccsr]

/-- The frozen record assembled at the end of `freeze`
(src/rcc.rs lines 693-731). -/
def mk_core_clocks (config : Config) (fp : FreezePlan)
    (pll1_p_ck pll1_q_ck pll1_r_ck : Option Nat) (sys_ck : Nat) :
    CoreClocks :=
  { hclk := fp.rcc_hclk
    pclk1 := fp.p1.2.2
    pclk2 := fp.p2.2.2
    pclk3 := fp.p3.2.2
    pclk4 := fp.p4.2.2
    ppre1 := fp.p1.2.1
    ppre2 := fp.p2.2.1
    ppre3 := fp.p3.2.1
    ppre4 := fp.p4.2.1
    csi_ck := some CSI
    hsi_ck := some HSI
    per_ck := some (per_ck_sel config.per_ck config.hse)
    hse_ck := config.hse
    pll1_p_ck := pll1_p_ck
    pll1_q_ck := pll1_q_ck
    pll1_r_ck := pll1_r_ck
    pll2_p_ck := none
    pll2_q_ck := none
    pll2_r_ck := none
    pll3_p_ck := none
    pll3_q_ck := none
    pll3_r_ck := none
    timx_ker_ck := tim_ker_clk fp.rcc_hclk fp.p1.1
    timy_ker_ck := tim_ker_clk fp.rcc_hclk fp.p2.1
    sys_ck := sys_ck
    c_ck := fp.sys_d1cpre_ck }

/-- The freeze sequencer (fn `freeze`, src/rcc.rs lines 526-732).
Returns the frozen `CoreClocks` and the ordered list of register
writes; an abort (failed `assert!` or arithmetic panic) yields
`Except.error` carrying the register writes performed before it.
Hardware-ready polls and the read-only `HSION`/`HSIDIV`/`CSIRDY`
asserts are modelled as succeeding (they write nothing). -/
def freeze (config : Config) (vos : Voltage) :
    Except (List RegWrite) (CoreClocks × List RegWrite) :=
  let srcclk := srcclk_of config
  match pll_setup config with
  | .error w => .error w
  | .ok ((pll1_p_ck, pll1_q_ck, pll1_r_ck), pllw) =>
    let sys_ck := pll1_p_ck.getD srcclk
    match freeze_plan config vos sys_ck with
    | none => .error pllw
    | some fp =>
      .ok (mk_core_clocks config fp pll1_p_ck pll1_q_ck pll1_r_ck sys_ck,
           pllw ++ freeze_tail_writes config.hse.isSome pll1_p_ck.isSome)

/-- Modelled from the spec: the selection rule as the claim words it —
the smallest divisor in {1, 2, 4, 8, 16} that is at least the
rounded-up ratio `ceil(hclk / target)`. -/
def ppre_claimed_smallest (r : Nat) : Nat :=
  if r ≤ 1 then 1
  else if r ≤ 2 then 2
  else if r ≤ 4 then 4
  else if r ≤ 8 then 8
  else 16

/-- The selection rule the source table actually implements: the
smallest divisor `d` in {1, 2, 4, 8, 16} with `2 * r < 3 * d` (the
divisor geometrically nearest the rounded-up ratio `r`), and 16 when
no element satisfies it. -/
def ppre_nearest (r : Nat) : Nat :=
  if 2 * r < 3 * 1 then 1
  else if 2 * r < 3 * 2 then 2
  else if 2 * r < 3 * 4 then 4
  else if 2 * r < 3 * 8 then 8
  else 16

/-! ### Concrete configurations used by the claim theorems -/

/-- The default request: every builder field absent. -/
def cfg_default : Config := ⟨none, none, none, none, none, none, none, none⟩

/-- HSI source, system clock requested at 32 MHz (below the source). -/
def cfg_sys32 : Config := ⟨none, some 32000000, none, none, none, none, none, none⟩

/-- HSI source, system clock requested at 400 MHz (spec scenario A). -/
def cfg_sys400 : Config := ⟨none, some 400000000, none, none, none, none, none, none⟩

/-- HSI source, system clock requested at 100 MHz. -/
def cfg_sys100 : Config := ⟨none, some 100000000, none, none, none, none, none, none⟩

/-- HSI source, system clock requested at 500 MHz (infeasible: the
VCO ceiling is 420 MHz). -/
def cfg_sys500 : Config := ⟨none, some 500000000, none, none, none, none, none, none⟩

/-- HSI source, system clock 400 MHz, APB1 bus target 200 MHz (the
recomputed pclk1 equals 200 MHz, above every voltage-scale
ceiling). -/
def cfg_pclk_over : Config :=
  ⟨none, some 400000000, none, none, some 200000000, none, none, none⟩

/-- HSI source, peripheral clock requested at exactly 4 MHz. -/
def cfg_per4 : Config := ⟨none, none, some 4000000, none, none, none, none, none⟩

/-- HSI source, peripheral clock requested at 5 MHz. -/
def cfg_per5 : Config := ⟨none, none, some 5000000, none, none, none, none, none⟩

/-- The `CoreClocks` record produced by freezing `cfg_default` (and
`cfg_per5`, whose rejected peripheral-clock request falls back to
HSI) at voltage scale 1. -/
def cc_default : CoreClocks :=
  ⟨32000000, 16000000, 16000000, 16000000, 16000000, 2, 2, 2, 2,
   some 4000000, some 64000000, some 64000000, none,
   none, none, none, none, none, none, none, none, none,
   32000000, 32000000, 64000000, 64000000⟩

/-- The register writes of a PLL-less, HSE-less freeze run. -/
def w_default : List RegWrite :=
  [.flash_acr, .cr_csion, .d1cfgr, .d2cfgr, .d3cfgr,
   .d1ccipr, .cfgr_timpre, .cfgr_sw, .apb4enr, .syscfg_cccsr]

/-! ## Helper lemmas -/

/-- `q ||| 1` sets the lowest bit: it equals `2 * (q / 2) + 1`. -/
theorem lor_one_eq (q : Nat) : (q ||| 1) = 2 * (q / 2) + 1 := by
  apply Nat.eq_of_testBit_eq
  intro i
  cases i with
  | zero =>
    simp only [Nat.testBit_lor, Nat.testBit_zero]
    have h1 : (2 * (q / 2) + 1) % 2 = 1 := by omega
    have h2 : (1 : Nat) % 2 = 1 := by norm_num
    simp [h1, h2]
  | succ n =>
    have h2 : (2 * (q / 2) + 1) / 2 = q / 2 := by omega
    have h3 : (1 : Nat) / 2 = 0 := by norm_num
    rw [Nat.testBit_lor, Nat.testBit_succ, Nat.testBit_succ, Nat.testBit_succ,
      h2, h3, Nat.zero_testBit, Bool.or_false]

/-- Hence the output divider below half the VCO maximum is the largest
even number at most `420000000 / sys_ck`. -/
theorem pll1_p_of_low (sys_ck : Nat) (h : ¬ sys_ck > pll1_vco_max / 2) :
    pll1_p_of sys_ck = 2 * ((pll1_vco_max / sys_ck) / 2) := by
  rw [pll1_p_of, if_neg h, lor_one_eq]
  omega

/-- The rounded-up ratio `(h + t - 1) / t` is at most `k` exactly when
`h ≤ k * t` (for `t > 0`): it is the ceiling of `h / t`. -/
theorem ceil_le_iff (h t k : Nat) (ht : 0 < t) :
    (h + t - 1) / t ≤ k ↔ h ≤ k * t := by
  rw [Nat.div_le_iff_le_mul_add_pred ht]
  have e : h + t - 1 = h + (t - 1) := by omega
  rw [e, Nat.add_le_add_iff_right, mul_comm]

/-- The rounded-up ratio is antitone in the divisor. -/
theorem ceil_anti (h t1 t2 : Nat) (h1 : 0 < t1) (h12 : t1 ≤ t2) :
    (h + t2 - 1) / t2 ≤ (h + t1 - 1) / t1 := by
  have h2 : 0 < t2 := lt_of_lt_of_le h1 h12
  rw [ceil_le_iff h t2 _ h2]
  calc h ≤ ((h + t1 - 1) / t1) * t1 := by
        have := (ceil_le_iff h t1 ((h + t1 - 1) / t1) h1).mp le_rfl
        exact this
    _ ≤ ((h + t1 - 1) / t1) * t2 := Nat.mul_le_mul_left _ h12

/-- The APB prescaler table is monotone in the rounded-up ratio. -/
theorem ppre_tbl_mono (r1 r2 : Nat) (h : r1 ≤ r2) :
    (ppre_bits_div r1).2 ≤ (ppre_bits_div r2).2 := by
  unfold ppre_bits_div
  split_ifs <;> simp <;> omega

/-- The source prescaler table equals the nearest-divisor rule for
every ratio at least 1. -/
theorem ppre_tbl_eq_nearest (r : Nat) (hr : 1 ≤ r) :
    (ppre_bits_div r).2 = ppre_nearest r := by
  unfold ppre_bits_div ppre_nearest
  split_ifs <;> (try dsimp only) <;> omega

/-- The source prescaler table only produces legal divisors (for
ratios at least 1). -/
theorem ppre_tbl_mem (r : Nat) (hr : 1 ≤ r) :
    (ppre_bits_div r).2 ∈ [1, 2, 4, 8, 16] := by
  unfold ppre_bits_div
  split_ifs <;> simp_all

/-- The nearest-divisor rule satisfies its own bound or falls back
to 16. -/
theorem ppre_nearest_lb (r : Nat) :
    2 * r < 3 * ppre_nearest r ∨ ppre_nearest r = 16 := by
  unfold ppre_nearest
  split_ifs <;> omega

/-- The nearest-divisor rule is minimal among legal divisors
satisfying the bound. -/
theorem ppre_nearest_min (r d : Nat) (hd : d ∈ [1, 2, 4, 8, 16])
    (h : 2 * r < 3 * d) : ppre_nearest r ≤ d := by
  unfold ppre_nearest
  fin_cases hd <;> split_ifs <;> omega

/-- Either branch shape of the PLL planner: it fails with no register
writes, succeeds in bypass with no plan and no writes, or produces a
two-output plan after writing the three PLL registers. -/
theorem pll_setup_cases (cfg : Config) :
    pll_setup cfg = .error [] ∨
    pll_setup cfg = .ok ((none, none, none), []) ∨
    ∃ p q, pll_setup cfg =
      .ok ((some p, some q, none),
           [RegWrite.pllckselr, RegWrite.pll1divr, RegWrite.pllcfgr]) := by
  unfold pll_setup
  dsimp only
  split_ifs <;> simp

/-- Bypass characterisation: the planner returns the no-PLL plan with
no register writes exactly when the requested system clock equals the
source clock. -/
theorem pll_setup_bypass_iff (cfg : Config) :
    pll_setup cfg = .ok ((none, none, none), []) ↔
    sys_ck_of cfg = srcclk_of cfg := by
  constructor
  · intro h
    by_contra hne
    unfold pll_setup at h
    dsimp only at h
    rw [if_pos hne] at h
    split_ifs at h
    simp_all
  · intro he
    unfold pll_setup
    dsimp only
    rw [if_neg (by simp [he])]

/-- Inversion of a successful engaged run of the PLL planner: all of
the planner's own assertions held, and the outputs have the computed
values. -/
theorem pll_setup_ok_engaged (cfg : Config) (p : Option Nat × Option Nat × Option Nat)
    (w : List RegWrite) (hne : sys_ck_of cfg ≠ srcclk_of cfg)
    (h : pll_setup cfg = .ok (p, w)) :
    0 < srcclk_of cfg ∧ pll1_m_of (srcclk_of cfg) < 64 ∧
    1000000 ≤ ref1_ck_of (srcclk_of cfg) ∧ ref1_ck_of (srcclk_of cfg) ≤ 2000000 ∧
    pll1_p_of (sys_ck_of cfg) ≤ 128 ∧
    pll1_vco_min ≤ vco1_ck_of (sys_ck_of cfg) ∧
    vco1_ck_of (sys_ck_of cfg) ≤ pll1_vco_max ∧
    4 ≤ pll1_n_of (srcclk_of cfg) (sys_ck_of cfg) ∧
    pll1_n_of (srcclk_of cfg) (sys_ck_of cfg) ≤ 512 ∧
    p = (some (pll1_p_ck_of (srcclk_of cfg) (sys_ck_of cfg)),
         some (pll1_p_ck_of (srcclk_of cfg) (sys_ck_of cfg)),
         none) ∧
    w = [RegWrite.pllckselr, RegWrite.pll1divr, RegWrite.pllcfgr] := by
  unfold pll_setup at h
  dsimp only at h
  rw [if_pos hne] at h
  split_ifs at h with h1
  obtain ⟨a1, a2, a3, a4, a5, a6, a7, a8, a9⟩ := h1
  refine ⟨a1, a2, a3, a4, a5, a6, a7, a8, a9, ?_, ?_⟩ <;> simp_all

/-- Every abort of `freeze` happens with either no register written
or exactly the three PLL divider/configuration registers written. -/
theorem freeze_error_cases (cfg : Config) (vos : Voltage) (w : List RegWrite)
    (h : freeze cfg vos = .error w) :
    w = [] ∨ w = [RegWrite.pllckselr, RegWrite.pll1divr, RegWrite.pllcfgr] := by
  unfold freeze at h
  rcases pll_setup_cases cfg with hp | hp | ⟨p, q, hp⟩ <;> rw [hp] at h <;>
    simp only [Option.getD_none, Option.getD_some, Option.isSome_none,
      Option.isSome_some, List.nil_append] at h
  · injection h with h2; exact Or.inl h2.symm
  · cases hfp : freeze_plan cfg vos (srcclk_of cfg) <;> rw [hfp] at h <;> simp_all
  · cases hfp : freeze_plan cfg vos p <;> rw [hfp] at h <;> simp_all

/-- Decomposition of a successful `freeze` run into its PLL plan, its
bus-divider plan and its register-write list. -/
theorem freeze_ok_shape (cfg : Config) (vos : Voltage) (cc : CoreClocks)
    (w : List RegWrite) (h : freeze cfg vos = .ok (cc, w)) :
    ∃ plan pllw fp, pll_setup cfg = .ok (plan, pllw) ∧
      freeze_plan cfg vos (plan.1.getD (srcclk_of cfg)) = some fp ∧
      cc = mk_core_clocks cfg fp plan.1 plan.2.1 plan.2.2 (plan.1.getD (srcclk_of cfg)) ∧
      w = pllw ++ freeze_tail_writes cfg.hse.isSome plan.1.isSome ∧
      (pllw = [] ∨ pllw = [RegWrite.pllckselr, RegWrite.pll1divr, RegWrite.pllcfgr]) := by
  unfold freeze at h
  rcases pll_setup_cases cfg with hp | hp | ⟨pv, qv, hp⟩ <;> rw [hp] at h <;>
    simp only [Option.getD_none, Option.getD_some, Option.isSome_none,
      Option.isSome_some, List.nil_append] at h
  · exact absurd h (by simp)
  · cases hfp : freeze_plan cfg vos (srcclk_of cfg) with
    | none => rw [hfp] at h; exact absurd h (by simp)
    | some fp =>
      rw [hfp] at h
      injection h with h2
      simp only [Prod.mk.injEq] at h2
      obtain ⟨h3, h4⟩ := h2
      refine ⟨(none, none, none), [], fp, hp, ?_, ?_, ?_, Or.inl rfl⟩ <;>
        simp only [Option.getD_none, Option.isSome_none, List.nil_append]
      · exact hfp
      · exact h3.symm
      · exact h4.symm
  · cases hfp : freeze_plan cfg vos pv with
    | none => rw [hfp] at h; exact absurd h (by simp)
    | some fp =>
      rw [hfp] at h
      injection h with h2
      simp only [Prod.mk.injEq] at h2
      obtain ⟨h3, h4⟩ := h2
      refine ⟨(some pv, some qv, none), _, fp, hp, ?_, ?_, ?_, Or.inr rfl⟩ <;>
        simp only [Option.getD_some, Option.isSome_some]
      · exact hfp
      · exact h3.symm
      · exact h4.symm

/-! ## Claims -/

/-- C1, counterexample: with the default HSI source (64 MHz > 0) and
a requested system clock of 32 MHz (at or below the source), the
planner does NOT bypass: it produces a full PLL plan and writes the
PLL registers, because the source tests `sys_ck != srcclk`, not
`sys_ck > srcclk`.  The claim's "no PLL plan for every target ≤
source" is therefore false. -/
theorem c1_counterexample :
    0 < srcclk_of cfg_sys32 ∧ sys_ck_of cfg_sys32 ≤ srcclk_of cfg_sys32 ∧
    pll_setup cfg_sys32 =
      .ok ((some 32000000, some 32000000, none),
           [RegWrite.pllckselr, RegWrite.pll1divr, RegWrite.pllcfgr]) :=
  ⟨by decide, by decide, rfl⟩

/-- C1 (amended): only when the requested system frequency EQUALS the
source frequency does `pll_setup` produce no PLL plan (all three
outputs `none`, no register written), and then the frozen system
clock equals the source frequency. -/
theorem c1_bypass_iff_equal (cfg : Config) (vos : Voltage) (cc : CoreClocks)
    (w : List RegWrite) (h : sys_ck_of cfg = srcclk_of cfg)
    (hf : freeze cfg vos = .ok (cc, w)) :
    pll_setup cfg = .ok ((none, none, none), []) ∧
    cc.sys_ck = srcclk_of cfg := by
  have hb := (pll_setup_bypass_iff cfg).mpr h
  refine ⟨hb, ?_⟩
  obtain ⟨plan, pllw, fp, hp, hfp, hcc, hw, hpllw⟩ := freeze_ok_shape cfg vos cc w hf
  have h2 := hb.symm.trans hp
  injection h2 with h3
  rw [Prod.mk.injEq] at h3
  obtain ⟨h4, h5⟩ := h3
  rw [hcc, ← h4]
  simp [mk_core_clocks]

/-- C1 witness: the all-default configuration freezes with the system
clock equal to the 64 MHz HSI source and no PLL plan. -/
theorem c1_witness :
    pll_setup cfg_default = .ok ((none, none, none), []) ∧
    cc_default.sys_ck = srcclk_of cfg_default :=
  c1_bypass_iff_equal cfg_default .Scale1 cc_default w_default rfl rfl

/-- C2, counterexample: for `hclk` = 240 MHz and explicit bus target
50 MHz under the scale-0 ceiling of 120 MHz, the full macro expansion
(`ppre_one`, including its `assert!(pclk <= max)` ceiling check)
completes without abort: the rounded-up ratio is 5, so the smallest
divisor in {1, 2, 4, 8, 16} at least the ratio is 8, but the source
table picks 4 (the recomputed bus clock, 60 MHz, exceeds the target
but passes the ceiling).  The claim's "smallest `d` with
`ceil(hclk / t) ≤ d`" is therefore not the implemented rule. -/
theorem c2_counterexample :
    1 ≤ 50000000 ∧ (50000000 : Nat) ≤ 240000000 ∧
    ppre_one 240000000 (some 50000000) 120000000 =
      some (0b101, 4, 60000000) ∧
    ppre_claimed_smallest ((240000000 + 50000000 - 1) / 50000000) = 8 ∧
    ¬ ((240000000 + 50000000 - 1) / 50000000 ≤ 4) := by
  refine ⟨by decide, by decide, rfl, by decide, by decide⟩

/-- C2 (amended): for every AHB clock `hclk`, explicit bus target `t`
with `1 ≤ t ≤ hclk` and voltage-scale ceiling, whenever the macro
expansion completes without abort (its ceiling assertion holds), the
chosen APB prescaler is the smallest divisor `d` in {1, 2, 4, 8, 16}
such that `2 * ceil(hclk / t) < 3 * d` — the member of the legal set
geometrically nearest the rounded-up ratio — with 16 chosen when no
element satisfies this (`ceil(hclk / t) ≥ 24`); the final bus clock
is recomputed as `hclk / d` and is at or below the ceiling. -/
theorem c2_prescaler_rule (hclk t max bits d pclk : Nat) (h1 : 1 ≤ t)
    (h2 : t ≤ hclk)
    (h : ppre_one hclk (some t) max = some (bits, d, pclk)) :
    d = ppre_nearest ((hclk + t - 1) / t) ∧
    d ∈ [1, 2, 4, 8, 16] ∧
    (2 * ((hclk + t - 1) / t) < 3 * d ∨ d = 16) ∧
    (∀ e, e ∈ [1, 2, 4, 8, 16] → 2 * ((hclk + t - 1) / t) < 3 * e → d ≤ e) ∧
    pclk = hclk / d ∧ pclk ≤ max := by
  have hr : 1 ≤ (hclk + t - 1) / t := by
    rw [Nat.le_div_iff_mul_le (by omega : 0 < t)]
    omega
  simp only [ppre_one, Option.getD_some] at h
  split_ifs at h with hz hd hle
  injection h with h3
  simp only [Prod.mk.injEq] at h3
  obtain ⟨-, h4, h5⟩ := h3
  have he : d = ppre_nearest ((hclk + t - 1) / t) := by
    rw [← h4]; exact ppre_tbl_eq_nearest _ hr
  refine ⟨he, ?_, ?_, ?_, by rw [← h4]; exact h5.symm, ?_⟩
  · rw [← h4]; exact ppre_tbl_mem _ hr
  · rw [he]; exact ppre_nearest_lb _
  · intro e hee hlt
    rw [he]; exact ppre_nearest_min _ e hee hlt
  · rw [h5] at hle; exact hle

/-- C2 witness: for `hclk` = 64 MHz, target 16 MHz (ratio 4) and a
100 MHz ceiling, the completed expansion picks divisor 4 and a 16 MHz
bus clock. -/
theorem c2_witness :
    4 = ppre_nearest ((64000000 + 16000000 - 1) / 16000000) ∧
    (4 : Nat) ∈ [1, 2, 4, 8, 16] ∧
    (2 * ((64000000 + 16000000 - 1) / 16000000) < 3 * 4 ∨ (4 : Nat) = 16) ∧
    (∀ e, e ∈ [1, 2, 4, 8, 16] →
      2 * ((64000000 + 16000000 - 1) / 16000000) < 3 * e → 4 ≤ e) ∧
    (16000000 : Nat) = 64000000 / 4 ∧ (16000000 : Nat) ≤ 100000000 :=
  c2_prescaler_rule 64000000 16000000 100000000 0b101 4 16000000
    (by decide) (by decide) rfl

/-- C3, counterexample: with the PLL engaged (64 MHz source, 400 MHz
target) and APB1 explicitly targeted at 200 MHz, the recomputed bus
clock (200 MHz) exceeds every voltage-scale ceiling, so bus-divider
planning fails — but the three PLL divider/configuration registers
have already been written by `pll_setup`.  The claim's "every
planning-time failure occurs before any register write" is therefore
false. -/
theorem c3_counterexample :
    freeze_plan cfg_pclk_over .Scale0 400000000 = none ∧
    freeze cfg_pclk_over .Scale0 =
      .error [RegWrite.pllckselr, RegWrite.pll1divr, RegWrite.pllcfgr] ∧
    [RegWrite.pllckselr, RegWrite.pll1divr, RegWrite.pllcfgr] ≠
      ([] : List RegWrite) :=
  ⟨rfl, rfl, by decide⟩

/-- C3 (amended): every fatal abort of `freeze` happens before the
flash wait-state write, the clock enables and the system clock source
switch — the abort trace is empty or exactly the three PLL
divider/configuration registers written by `pll_setup`; and when the
PLL is not engaged (requested system clock equals the source), every
planning failure occurs before any register write at all. -/
theorem c3_abort_trace (cfg : Config) (vos : Voltage) (w : List RegWrite)
    (h : freeze cfg vos = .error w) :
    (w = [] ∨ w = [RegWrite.pllckselr, RegWrite.pll1divr, RegWrite.pllcfgr]) ∧
    RegWrite.flash_acr ∉ w ∧ RegWrite.cfgr_sw ∉ w ∧ RegWrite.cr_pll1on ∉ w ∧
    (sys_ck_of cfg = srcclk_of cfg → w = []) := by
  have hc := freeze_error_cases cfg vos w h
  refine ⟨hc, ?_, ?_, ?_, ?_⟩
  · rcases hc with rfl | rfl <;> decide
  · rcases hc with rfl | rfl <;> decide
  · rcases hc with rfl | rfl <;> decide
  · intro he
    have hb := (pll_setup_bypass_iff cfg).mpr he
    unfold freeze at h
    rw [hb] at h
    simp only [Option.getD_none, Option.isSome_none, List.nil_append] at h
    cases hfp : freeze_plan cfg vos (srcclk_of cfg) <;> rw [hfp] at h
    · injection h with h2; exact h2.symm
    · exact absurd h (by simp)

/-- C3 witness: requesting an infeasible 500 MHz system clock aborts
the freeze with no register written. -/
theorem c3_witness :
    (([] : List RegWrite) = [] ∨
      ([] : List RegWrite) =
        [RegWrite.pllckselr, RegWrite.pll1divr, RegWrite.pllcfgr]) ∧
    RegWrite.flash_acr ∉ ([] : List RegWrite) ∧
    RegWrite.cfgr_sw ∉ ([] : List RegWrite) ∧
    RegWrite.cr_pll1on ∉ ([] : List RegWrite) ∧
    (sys_ck_of cfg_sys500 = srcclk_of cfg_sys500 → ([] : List RegWrite) = []) :=
  c3_abort_trace cfg_sys500 .Scale0 [] rfl

/-- C4: whenever the PLL is engaged and a plan is produced, the
reference prescaler `pll1_m` is the smallest positive integer
bringing `srcclk / pll1_m` to at most 2 MHz (in exact arithmetic:
the least `m > 0` with `srcclk ≤ 2_000_000 * m`), the resulting
reference clock lies in [1 MHz, 2 MHz], and the source is at least
1 MHz (below 1 MHz no prescaler can reach the range and the planner
aborts: its range assertion cannot hold). -/
theorem c4_ref_prescaler (cfg : Config) (p : Option Nat × Option Nat × Option Nat)
    (w : List RegWrite) (hne : sys_ck_of cfg ≠ srcclk_of cfg)
    (h : pll_setup cfg = .ok (p, w)) :
    srcclk_of cfg ≤ 2000000 * pll1_m_of (srcclk_of cfg) ∧
    (∀ m, 0 < m → srcclk_of cfg ≤ 2000000 * m → pll1_m_of (srcclk_of cfg) ≤ m) ∧
    1000000 ≤ ref1_ck_of (srcclk_of cfg) ∧ ref1_ck_of (srcclk_of cfg) ≤ 2000000 ∧
    1000000 ≤ srcclk_of cfg := by
  obtain ⟨a1, a2, a3, a4, -⟩ := pll_setup_ok_engaged cfg p w hne h
  refine ⟨?_, ?_, a3, a4, ?_⟩
  · unfold pll1_m_of; omega
  · intro m hm hle; unfold pll1_m_of; omega
  · calc (1000000 : Nat) ≤ ref1_ck_of (srcclk_of cfg) := a3
      _ ≤ srcclk_of cfg := Nat.div_le_self _ _

/-- C4 witness: the 64 MHz HSI source with a 400 MHz target picks the
minimal prescaler and a reference clock in range. -/
theorem c4_witness :
    srcclk_of cfg_sys400 ≤ 2000000 * pll1_m_of (srcclk_of cfg_sys400) ∧
    (∀ m, 0 < m → srcclk_of cfg_sys400 ≤ 2000000 * m →
      pll1_m_of (srcclk_of cfg_sys400) ≤ m) ∧
    1000000 ≤ ref1_ck_of (srcclk_of cfg_sys400) ∧
    ref1_ck_of (srcclk_of cfg_sys400) ≤ 2000000 ∧
    1000000 ≤ srcclk_of cfg_sys400 :=
  c4_ref_prescaler cfg_sys400 (some 400000000, some 400000000, none)
    [RegWrite.pllckselr, RegWrite.pll1divr, RegWrite.pllcfgr] (by decide) rfl

/-- C5: whenever the PLL is engaged and a plan is produced without
abort, the VCO output divider is 1 above 210 MHz (half the 420 MHz
VCO maximum), and otherwise the largest even value keeping
`sys_ck * pll1_p` at or below 420 MHz; the VCO frequency lies in
[150 MHz, 420 MHz] and the feedback divisor in [4, 512]. -/
theorem c5_vco_divider (cfg : Config) (p : Option Nat × Option Nat × Option Nat)
    (w : List RegWrite) (hne : sys_ck_of cfg ≠ srcclk_of cfg)
    (h : pll_setup cfg = .ok (p, w)) :
    (sys_ck_of cfg > 210000000 → pll1_p_of (sys_ck_of cfg) = 1) ∧
    (sys_ck_of cfg ≤ 210000000 →
      pll1_p_of (sys_ck_of cfg) % 2 = 0 ∧
      (∀ d, d % 2 = 0 → sys_ck_of cfg * d ≤ 420000000 →
        d ≤ pll1_p_of (sys_ck_of cfg))) ∧
    sys_ck_of cfg * pll1_p_of (sys_ck_of cfg) ≤ 420000000 ∧
    150000000 ≤ vco1_ck_of (sys_ck_of cfg) ∧
    vco1_ck_of (sys_ck_of cfg) ≤ 420000000 ∧
    4 ≤ pll1_n_of (srcclk_of cfg) (sys_ck_of cfg) ∧
    pll1_n_of (srcclk_of cfg) (sys_ck_of cfg) ≤ 512 := by
  obtain ⟨a1, a2, a3, a4, a5, a6, a7, a8, a9, -, -⟩ :=
    pll_setup_ok_engaged cfg p w hne h
  have hvhalf : pll1_vco_max / 2 = 210000000 := by norm_num [pll1_vco_max]
  have hsys : 0 < sys_ck_of cfg := by
    rcases Nat.eq_zero_or_pos (sys_ck_of cfg) with h0 | h0
    · rw [h0] at a6
      simp [vco1_ck_of, pll1_vco_min] at a6
    · exact h0
  refine ⟨?_, ?_, a7, a6, a7, a8, a9⟩
  · intro hgt
    unfold pll1_p_of
    rw [hvhalf, if_pos hgt]
  · intro hle
    have hp2 := pll1_p_of_low (sys_ck_of cfg) (by rw [hvhalf]; omega)
    constructor
    · rw [hp2]; omega
    · intro d hd hdle
      have hdq : d ≤ pll1_vco_max / sys_ck_of cfg :=
        (Nat.le_div_iff_mul_le hsys).mpr (by rw [mul_comm] at hdle; exact hdle)
      rw [hp2]; omega

/-- C5 witness: with a 100 MHz target from the 64 MHz HSI source the
divider is the largest even value (4, for a 400 MHz VCO). -/
theorem c5_witness :
    (sys_ck_of cfg_sys100 > 210000000 → pll1_p_of (sys_ck_of cfg_sys100) = 1) ∧
    (sys_ck_of cfg_sys100 ≤ 210000000 →
      pll1_p_of (sys_ck_of cfg_sys100) % 2 = 0 ∧
      (∀ d, d % 2 = 0 → sys_ck_of cfg_sys100 * d ≤ 420000000 →
        d ≤ pll1_p_of (sys_ck_of cfg_sys100))) ∧
    sys_ck_of cfg_sys100 * pll1_p_of (sys_ck_of cfg_sys100) ≤ 420000000 ∧
    150000000 ≤ vco1_ck_of (sys_ck_of cfg_sys100) ∧
    vco1_ck_of (sys_ck_of cfg_sys100) ≤ 420000000 ∧
    4 ≤ pll1_n_of (srcclk_of cfg_sys100) (sys_ck_of cfg_sys100) ∧
    pll1_n_of (srcclk_of cfg_sys100) (sys_ck_of cfg_sys100) ≤ 512 :=
  c5_vco_divider cfg_sys100 (some 100000000, some 100000000, none)
    [RegWrite.pllckselr, RegWrite.pll1divr, RegWrite.pllcfgr] (by decide) rfl

/-- C6: in every completing `freeze` run, the flash wait-state write
precedes the system clock source switch and (when the PLL is enabled
at all) the PLL enable. -/
theorem c6_flash_before_raise (cfg : Config) (vos : Voltage) (cc : CoreClocks)
    (w : List RegWrite) (h : freeze cfg vos = .ok (cc, w)) :
    RegWrite.flash_acr ∈ w ∧ RegWrite.cfgr_sw ∈ w ∧
    w.indexOf RegWrite.flash_acr < w.indexOf RegWrite.cfgr_sw ∧
    (RegWrite.cr_pll1on ∈ w →
      w.indexOf RegWrite.flash_acr < w.indexOf RegWrite.cr_pll1on) := by
  obtain ⟨plan, pllw, fp, hp, hfp, hcc, hw, hpllw⟩ := freeze_ok_shape cfg vos cc w h
  subst hw
  rcases hpllw with rfl | rfl <;>
    cases hb : cfg.hse.isSome <;> cases hq : plan.1.isSome <;> decide

/-- C6 witness: the default freeze run writes flash ACR before the
clock switch. -/
theorem c6_witness :
    RegWrite.flash_acr ∈ w_default ∧ RegWrite.cfgr_sw ∈ w_default ∧
    w_default.indexOf RegWrite.flash_acr < w_default.indexOf RegWrite.cfgr_sw ∧
    (RegWrite.cr_pll1on ∈ w_default →
      w_default.indexOf RegWrite.flash_acr <
        w_default.indexOf RegWrite.cr_pll1on) :=
  c6_flash_before_raise cfg_default .Scale1 cc_default w_default rfl

/-- C7: the flash wait-state selection is a total deterministic
function of voltage scale and AXI clock; for every input the clock's
megahertz value falls in exactly one band of the (spec-modelled) band
table, and the selected pair is that band's pair. -/
theorem c7_flash_bands_exhaustive (vos : Voltage) (aclk : Nat) :
    flash_ws vos aclk = flash_ws_tbl vos (aclk / 1000000) ∧
    ((flash_bands vos).countP (fun b => inBand (aclk / 1000000) b) = 1) ∧
    (∀ b ∈ flash_bands vos, inBand (aclk / 1000000) b = true →
      flash_ws vos aclk = (b.2.2.1, b.2.2.2)) := by
  have key : ∀ mhz : Nat,
      ((flash_bands vos).countP (fun b => inBand mhz b) = 1) ∧
      (∀ b ∈ flash_bands vos, inBand mhz b = true →
        flash_ws_tbl vos mhz = (b.2.2.1, b.2.2.2)) := by
    intro mhz
    rcases vos <;> constructor <;>
      simp only [flash_bands, flash_ws_tbl, inBand, List.countP_cons,
        List.countP_nil, List.mem_cons, List.not_mem_nil, or_false,
        Bool.and_eq_true, decide_eq_true_eq, forall_eq_or_imp, forall_eq,
        Nat.zero_le, true_and, and_true] <;>
      first
        | (split_ifs <;> omega)
        | (refine ⟨?_, ?_, ?_, ?_, ?_, ?_⟩ <;> intro hb <;> split_ifs <;>
            first | rfl | omega)
  exact ⟨rfl, (key (aclk / 1000000)).1, (key (aclk / 1000000)).2⟩

/-- C7 witness: at the highest-performance scale and a 400 MHz AXI
clock exactly one band (the open-ended top band) matches. -/
theorem c7_witness :
    flash_ws .Scale0 400000000 = flash_ws_tbl .Scale0 (400000000 / 1000000) ∧
    ((flash_bands .Scale0).countP
      (fun b => inBand (400000000 / 1000000) b) = 1) ∧
    (∀ b ∈ flash_bands .Scale0, inBand (400000000 / 1000000) b = true →
      flash_ws .Scale0 400000000 = (b.2.2.1, b.2.2.2)) :=
  c7_flash_bands_exhaustive .Scale0 400000000

/-- C8: for a fixed AHB clock the chosen APB prescaler is
monotonically non-increasing in the explicit bus target. -/
theorem c8_prescaler_antitone (hclk t1 t2 : Nat) (h1 : 1 ≤ t1) (h12 : t1 ≤ t2)
    (_h2 : t2 ≤ hclk) :
    ppre_div_of hclk t2 ≤ ppre_div_of hclk t1 := by
  unfold ppre_div_of
  exact ppre_tbl_mono _ _ (ceil_anti hclk t1 t2 h1 h12)

/-- C8 witness: raising the target from 8 MHz to 16 MHz does not
raise the prescaler. -/
theorem c8_witness :
    ppre_div_of 64000000 16000000 ≤ ppre_div_of 64000000 8000000 :=
  c8_prescaler_antitone 64000000 8000000 16000000 (by decide) (by decide)
    (by decide)

/-- C9: spec scenario A — 64 MHz HSI source, 400 MHz requested system
clock, highest-performance voltage scale: the PLL engages with
reference prescaler 32, reference clock exactly 2 MHz, output divider
1, VCO at 400 MHz (inside [150 MHz, 420 MHz]), feedback divisor 200,
and the frozen system clock is exactly 400 MHz, within the 480 MHz
scale-0 system-clock limit. -/
theorem c9_scenario_a :
    pll1_m_of (srcclk_of cfg_sys400) = 32 ∧
    ref1_ck_of (srcclk_of cfg_sys400) = 2000000 ∧
    pll1_p_of (sys_ck_of cfg_sys400) = 1 ∧
    pll1_n_of (srcclk_of cfg_sys400) (sys_ck_of cfg_sys400) = 200 ∧
    vco1_ck_of (sys_ck_of cfg_sys400) = 400000000 ∧
    150000000 ≤ vco1_ck_of (sys_ck_of cfg_sys400) ∧
    vco1_ck_of (sys_ck_of cfg_sys400) ≤ 420000000 ∧
    pll_setup cfg_sys400 =
      .ok ((some 400000000, some 400000000, none),
           [RegWrite.pllckselr, RegWrite.pll1divr, RegWrite.pllcfgr]) ∧
    (freeze cfg_sys400 .Scale0).toOption.map (fun x => x.1.sys_ck) =
      some 400000000 ∧
    400000000 ≤ (limits .Scale0).1 :=
  ⟨rfl, rfl, rfl, rfl, rfl, by decide, by decide, rfl, rfl, by decide⟩

/-- C10, counterexample: a requested peripheral clock of exactly
4 MHz with no HSE configured is outside the claim's "fallback to
64 MHz" case, and the frozen `per_ck` honours it (reports the
requested 4 MHz via the CSI source) — refuting "the requested per_ck
value is never honored in any other case". -/
theorem c10_counterexample :
    cfg_per4.per_ck = some 4000000 ∧ cfg_per4.hse = none ∧
    (freeze cfg_per4 .Scale1).toOption.map (fun x => x.1.per_ck) =
      some (some 4000000) :=
  ⟨rfl, rfl, rfl⟩

/-- C10 (amended): when the requested peripheral clock differs from
the configured HSE request and is not exactly 4 MHz, the frozen
`per_ck` silently reports 64 MHz (HSI); in every other case with a
request — it equals the HSE request, or equals 4 MHz — the requested
value is honoured. -/
theorem c10_per_ck_rule (cfg : Config) (pv : Nat) (vos : Voltage)
    (cc : CoreClocks) (w : List RegWrite) (h : cfg.per_ck = some pv)
    (hf : freeze cfg vos = .ok (cc, w)) :
    cc.per_ck = some (per_ck_sel cfg.per_ck cfg.hse) ∧
    (cfg.per_ck ≠ cfg.hse → pv ≠ 4000000 →
      per_ck_sel cfg.per_ck cfg.hse = 64000000) ∧
    (cfg.per_ck = cfg.hse ∨ pv = 4000000 →
      per_ck_sel cfg.per_ck cfg.hse = pv) := by
  obtain ⟨plan, pllw, fp, hp, hfp, hcc, hw, hpllw⟩ := freeze_ok_shape cfg vos cc w hf
  refine ⟨by rw [hcc]; rfl, ?_, ?_⟩
  · intro hne hnp
    have hb : (some pv == cfg.hse) = false := by
      rw [← h]; simp [hne]
    have hc : (pv == CSI) = false := by
      simp [CSI, hnp]
    simp only [per_ck_sel, h, hb, hc]
    rfl
  · intro hor
    by_cases heq : cfg.per_ck = cfg.hse
    · have hb : (some pv == cfg.hse) = true := by
        rw [← h]; simp [heq]
      simp only [per_ck_sel, h, hb]
    · have hb : (some pv == cfg.hse) = false := by
        rw [← h]; simp [heq]
      have h4 : pv = 4000000 := hor.resolve_left heq
      have hc : (pv == CSI) = true := by
        simp [CSI, h4]
      simp only [per_ck_sel, h, hb, hc]
      simp [CSI, h4]

/-- C10 witness: a 5 MHz request (neither the HSE value nor 4 MHz)
falls back to the 64 MHz HSI report. -/
theorem c10_witness :
    cc_default.per_ck = some (per_ck_sel cfg_per5.per_ck cfg_per5.hse) ∧
    (cfg_per5.per_ck ≠ cfg_per5.hse → (5000000 : Nat) ≠ 4000000 →
      per_ck_sel cfg_per5.per_ck cfg_per5.hse = 64000000) ∧
    (cfg_per5.per_ck = cfg_per5.hse ∨ (5000000 : Nat) = 4000000 →
      per_ck_sel cfg_per5.per_ck cfg_per5.hse = 5000000) :=
  c10_per_ck_rule cfg_per5 5000000 .Scale1 cc_default w_default rfl rfl

end Stm32Rcc
